import Mathlib

/-!
# QPORTFEED — formal model of the incident processing pipeline

Shallow embedding of the core pipeline of the QPORTFEED repository:

* `processIncidentWithAI` — the classification client
  (src/services/analyticsService.ts, second document: the Gemini service),
  modelled as a pure function over an attempt-indexed environment
  (`AttemptEnv`) standing for the nondeterministic backend, clock and
  random-id draws.  A thrown JavaScript exception is modelled as
  `Except.error`; the only uncaught throw is the input-validation error.
* `addIncident`, `stats`, `health` — the orchestrator hook
  (src/hooks/useQPort.ts), modelled as explicit state passing over
  `QPortState`.
* `TestRunner.runSuite` — the diagnostics battery (src/unnamed/part_001).

JavaScript conventions carried into the model:

* Falsiness: `x || d` on a string defaults when the string is absent or
  empty; on a number it defaults when the number is absent or `0`.
  `!err.status` is true when the status is absent or `0`.
* `string.length` is the length of the text (UTF-16 units in JS; the
  claims only exercise ASCII inputs, where the two notions agree).
* `Math.round x` is `⌊x + 1/2⌋` (round half toward +∞).
* Statuses and severities are string-valued (`'ACTIVE'`, `Severity.MAJOR`
  is the string `"MAJOR"`, ...), as in the TypeScript source.

JS numbers are modelled as `Int` where the code treats them as integers
(scores, counters, durations) and as `Rat` for coordinates and ratios.
-/

namespace QPort

/-- JS `s || d` for an optional string field: absent or empty is falsy. -/
def jsOrString (s : Option String) (d : String) : String :=
  match s with
  | none => d
  | some v => if v = "" then d else v

/-- JS `n || d` for an optional numeric field: absent or `0` is falsy. -/
def jsOrInt (n : Option Int) (d : Int) : Int :=
  match n with
  | none => d
  | some v => if v = 0 then d else v

/-- JS truthiness test `!x` for an optional numeric field
(`!err.status`): true when the field is absent or `0`. -/
def jsFalsyInt (n : Option Int) : Bool :=
  match n with
  | none => true
  | some v => v = 0

/-- JS `Math.round` on a nonnegative rational: `⌊q + 1/2⌋`. -/
def jsRound (q : Rat) : Int :=
  ⌊q + 1/2⌋

/-- `GroundingSource` from src/types (as consumed by the service):
`{title, uri}`. -/
structure GroundingSource where
  title : String
  uri : String
deriving DecidableEq, Repr

/-- `{lat, lng}` coordinates. -/
structure Coords where
  lat : Rat
  lng : Rat
deriving DecidableEq, Repr

/-- `ProcessedIncident` from src/types as constructed by the service:
`coords` is optional because the success path copies `data.coords`
verbatim, which the parsed payload may lack; `processing_latency` and
`grounding_sources` are set only on the success path. -/
structure Incident where
  id : String
  timestamp : String
  summary : String
  type : String
  severity : String
  priority_score : Int
  coords : Option Coords
  status : String
  processing_latency : Option Int := none
  grounding_sources : Option (List GroundingSource) := none
deriving DecidableEq, Repr

/-- `chunk.web` in the grounding metadata: `title` optional (string
falsiness applies), `uri` copied verbatim. -/
structure WebChunk where
  title : Option String
  uri : String
deriving DecidableEq, Repr

/-- One grounding chunk: may or may not carry a `web` part. -/
structure Chunk where
  web : Option WebChunk
deriving DecidableEq, Repr

/-- The fields of the parsed JSON payload `data = JSON.parse(response.text
|| '{}')` that the service reads.  Every field is optional: the parse of
`'{}'` has none of them. -/
structure RawData where
  summary : Option String := none
  type : Option String := none
  severity : Option String := none
  priority_score : Option Int := none
  coords : Option Coords := none
deriving DecidableEq, Repr

/-- A successful backend response after JSON parsing: the structured
payload plus the grounding chunks
(`response.candidates?.[0]?.groundingMetadata?.groundingChunks`). -/
structure RawResponse where
  data : RawData
  chunks : List Chunk
deriving DecidableEq, Repr

/-- A thrown backend error as observed by the catch block: only
`err.status` is inspected.  `none` models an error object with no
status field (network fault, JSON `SyntaxError`, ...). -/
structure ErrInfo where
  status : Option Int
deriving DecidableEq, Repr

/-- Everything one attempt of the client observes from its environment:
the backend outcome (success payload or thrown error), the random id
suffixes drawn by `Math.random`/`Date.now`, the timestamp, and the
measured latency. -/
structure AttemptEnv where
  outcome : Except ErrInfo RawResponse
  incSuffix : String
  errSuffix : String
  timestamp : String
  latency : Int
deriving Repr

/-- Grounding-source extraction loop of the success path: keep chunks
with a `web` part, defaulting a falsy title to `'Source'`. -/
def extractSources (chunks : List Chunk) : List GroundingSource :=
  chunks.filterMap fun c =>
    c.web.map fun w => { title := jsOrString w.title "Source", uri := w.uri }

/-- The incident built on the success path of `processIncidentWithAI`
(src/services/analyticsService.ts lines 97–108): field-level falsy
defaults, clamp of `priority_score` into [1,10], `coords` copied
verbatim, status `'ACTIVE'`. -/
def successIncident (e : AttemptEnv) (r : RawResponse) : Incident :=
  { id := "INC-" ++ e.incSuffix
    timestamp := e.timestamp
    summary := jsOrString r.data.summary "Summary unavailable."
    type := jsOrString r.data.type "OTHER"
    severity := jsOrString r.data.severity "MINOR"
    priority_score := min 10 (max 1 (jsOrInt r.data.priority_score 5))
    coords := r.data.coords
    status := "ACTIVE"
    processing_latency := some e.latency
    grounding_sources := some (extractSources r.chunks) }

/-- The synthesized fallback incident of the catch block
(src/services/analyticsService.ts lines 116–125). -/
def fallbackIncident (e : AttemptEnv) : Incident :=
  { id := "ERR-" ++ e.errSuffix
    timestamp := e.timestamp
    summary := "System fault in AI parsing logic."
    type := "OTHER"
    severity := "MAJOR"
    priority_score := 5
    coords := some { lat := 37.7749, lng := -122.4194 }
    status := "ERROR" }

/-- The retry guard of the catch block:
`err.status === 429 || !err.status`. -/
def retryableError (err : ErrInfo) : Bool :=
  err.status = some 429 || jsFalsyInt err.status

/-- `processIncidentWithAI(rawText, useGrounding, retryCount)`
(src/services/analyticsService.ts lines 35–127).  `env k` is what
attempt `k` observes.  The input-validation throw is the `.error`
branch; every other exception is caught inside the function, so every
other path returns `.ok`.  `useGrounding` only toggles the request's
search tool and does not change how the response is consumed. -/
def processIncidentWithAI (env : Nat → AttemptEnv) (rawText : String)
    (useGrounding : Bool) (retryCount : Nat) : Except String Incident :=
  if rawText.trim = "" ∨ rawText.length < 5 then
    .error "Input invalid."
  else
    match (env retryCount).outcome with
    | .ok response => .ok (successIncident (env retryCount) response)
    | .error err =>
      if h : retryCount < 3 ∧ retryableError err then
        processIncidentWithAI env rawText useGrounding (retryCount + 1)
      else
        .ok (fallbackIncident (env retryCount))
termination_by 3 - retryCount
decreasing_by omega

/-! ## Orchestrator hook (src/hooks/useQPort.ts) -/

/-- `DashboardStats` from src/types, as produced by the hook's `stats`. -/
structure DashboardStats where
  total : Nat
  critical : Nat
  dispatched : Nat
  solved : Nat
deriving DecidableEq, Repr

/-- `TestResult` diagnostic record kept in `diagnosticLog`:
`{id, name, status, duration}`. -/
structure TestResult where
  id : String
  name : String
  status : String
  duration : Int
deriving DecidableEq, Repr

/-- The hook state `addIncident` reads and writes: the incident list,
the two metric counters, and the content-addressed incident cache. -/
structure QPortState where
  incidents : List Incident
  cacheHits : Nat
  totalRequests : Nat
  cache : List (String × Incident)
deriving Repr

/-- Modelled from the spec: `CacheController.getCachedIncident`
(src/services/cacheService.ts is not under src/).  Spec §4.1:
`lookup(digest) -> Incident | absent`; with `store` prepending, the
first binding for a digest is the last write. -/
def lookupCache (cache : List (String × Incident)) (digest : String) :
    Option Incident :=
  (cache.find? fun e => e.1 = digest).map (·.2)

/-- Modelled from the spec: `CacheController.cacheIncident`
(src/services/cacheService.ts is not under src/).  Spec §4.1:
`store(digest, incident) -> void`: unconditional upsert, last write
wins — realized by prepending the new binding, which shadows any older
binding for the same digest under `lookupCache`. -/
def storeCache (cache : List (String × Incident)) (digest : String)
    (incident : Incident) : List (String × Incident) :=
  (digest, incident) :: cache

/-- `stats` (src/hooks/useQPort.ts lines 18–26): `total`, `critical`
and `dispatched` are computed over the non-SOLVED incidents; `solved`
over the SOLVED ones. -/
def stats (incidents : List Incident) : DashboardStats :=
  let active := incidents.filter fun i => i.status ≠ "SOLVED"
  { total := active.length
    critical := (active.filter fun i => i.severity = "CRITICAL").length
    dispatched := (active.filter fun i => i.status = "DISPATCHED").length
    solved := (incidents.filter fun i => i.status = "SOLVED").length }

/-- `health.api_status` (src/hooks/useQPort.ts line 78):
`diagnosticLog.find(t => t.id === 'core')?.status === 'FAIL' ? 'DOWN'
: incidents.some(i => i.status === 'ERROR') ? 'DEGRADED' : 'HEALTHY'`. -/
def healthApiStatus (diagnosticLog : List TestResult)
    (incidents : List Incident) : String :=
  if ((diagnosticLog.find? fun t => t.id = "core").map (·.status))
      = some "FAIL" then "DOWN"
  else if incidents.any fun i => i.status = "ERROR" then "DEGRADED"
  else "HEALTHY"

/-- `health.cache_hit_rate` (src/hooks/useQPort.ts line 79):
`totalRequests === 0 ? 0 : Math.round((cacheHits / totalRequests) * 100)`. -/
def healthCacheHitRate (cacheHits totalRequests : Nat) : Int :=
  if totalRequests = 0 then 0
  else jsRound ((cacheHits : Rat) / (totalRequests : Rat) * 100)

/-- `health.active_tests_passing` (src/hooks/useQPort.ts lines 76, 80):
`passing` counts PASS records; `0` when the log is empty, else
`Math.round((passing / diagnosticLog.length) * 100)`. -/
def healthActiveTestsPassing (diagnosticLog : List TestResult) : Int :=
  let passing := (diagnosticLog.filter fun t => t.status = "PASS").length
  if diagnosticLog.length = 0 then 0
  else jsRound ((passing : Rat) / (diagnosticLog.length : Rat) * 100)

/-- `addIncident` (src/hooks/useQPort.ts lines 86–125), with the
classification client abstracted as `classify` (the hook passes
`processIncidentWithAI(rawText, prefs.searchGrounding)`).  Returns the
new state and the resolved value: `some incident` or `none` (JS `null`).
`totalRequests` is bumped before the try block; the catch block turns
any thrown error into `none` without touching cache or incident list.
The fire-and-forget cloud sync and analytics calls have no effect on
this state and are omitted. -/
def addIncident (hash : String → String)
    (classify : String → Except String Incident)
    (st : QPortState) (rawText : String) : QPortState × Option Incident :=
  let st := { st with totalRequests := st.totalRequests + 1 }
  let digest := hash rawText
  match lookupCache st.cache digest with
  | some cached =>
    let newIncidents :=
      if st.incidents.any fun i => i.id = cached.id then
        cached :: st.incidents.filter fun i => i.id ≠ cached.id
      else
        cached :: st.incidents
    ({ st with cacheHits := st.cacheHits + 1, incidents := newIncidents },
     some cached)
  | none =>
    match classify rawText with
    | .ok processed =>
      ({ st with cache := storeCache st.cache digest processed,
                 incidents := processed :: st.incidents },
       some processed)
    | .error _ => (st, none)

/-! ## Diagnostics battery (src/unnamed/part_001) -/

/-- `TestResultDetails` from src/unnamed/part_001 lines 4–9. -/
structure TestResultDetails where
  name : String
  status : String
  duration : Int
  message : Option String := none
deriving DecidableEq, Repr

/-- What a check body does when run: return normally, or throw an
error carrying a message. -/
inductive CheckOutcome where
  | ok : CheckOutcome
  | throws (msg : String) : CheckOutcome
deriving DecidableEq, Repr

/-- The `runTest` helper of `TestRunner.runSuite` (src/unnamed/part_001
lines 16–24): a normal return records PASS, a throw records FAIL with
the error's message; either way the check's own measured duration is
recorded. -/
def runTest (name : String) (outcome : CheckOutcome) (duration : Int) :
    TestResultDetails :=
  match outcome with
  | .ok => { name := name, status := "PASS", duration := duration }
  | .throws m =>
    { name := name, status := "FAIL", duration := duration, message := some m }

/-- Check 1, 'Model Data Integrity' (src/unnamed/part_001 lines 27–34):
builds a mock incident with id `'TEST'`, timestamp `ts` (from
`new Date().toISOString()`), priority 10, and throws if id or timestamp
is falsy or the priority exceeds 10. -/
def dataIntegrityCheck (ts : String) : CheckOutcome :=
  let mockId := "TEST"
  let mockScore : Int := 10
  if mockId = "" ∨ ts = "" then .throws "Missing required fields"
  else if mockScore > 10 then .throws "Priority score out of bounds"
  else .ok

/-- Check 2, 'Geospatial Bounds Logic' (src/unnamed/part_001 lines
37–42): throws unless 37 < 37.7749 < 38. -/
def geospatialCheck : CheckOutcome :=
  let sfLat : Rat := 37.7749
  if 37 < sfLat ∧ sfLat < 38 then .ok
  else .throws "Geospatial validation failure"

/-- Check 3, 'Cache Storage Quota Check' (src/unnamed/part_001 lines
45–48): hashes `"test_payload"` with `CacheController.generateHash`
(abstracted as `hash`) and throws unless the digest has length 64. -/
def cacheHashCheck (hash : String → String) : CheckOutcome :=
  if (hash "test_payload").length = 64 then .ok
  else .throws "SHA-256 Hash failure"

/-- Check 4, 'State Immutability' (src/unnamed/part_001 lines 51–55):
copies `{status := 'ACTIVE'}` with status `'SOLVED'` and throws if the
original's status equals the copy's. -/
def immutabilityCheck : CheckOutcome :=
  let original := "ACTIVE"
  let next := "SOLVED"
  if original = next then .throws "Mutation detected in reducer logic"
  else .ok

/-- `TestRunner.runSuite` (src/unnamed/part_001 lines 11–59): the fixed
ordered battery, each check run through `runTest` so a throwing body is
recorded as FAIL and the remaining checks still run.  `ts` is the
timestamp drawn by check 1, `hash` the cache hash function, `durs k`
the measured duration of check `k`. -/
def runSuite (hash : String → String) (ts : String) (durs : Nat → Int) :
    List TestResultDetails :=
  [runTest "Model Data Integrity" (dataIntegrityCheck ts) (durs 0),
   runTest "Geospatial Bounds Logic" geospatialCheck (durs 1),
   runTest "Cache Storage Quota Check" (cacheHashCheck hash) (durs 2),
   runTest "State Immutability" immutabilityCheck (durs 3)]

/-- `suiteResults.every(r => r.status === 'PASS')`
(src/hooks/useQPort.ts line 44). -/
def suitePass (results : List TestResultDetails) : Bool :=
  results.all fun r => r.status = "PASS"

/-! ## Unfolding lemmas for the classification client -/

/-- An invalid input makes the client throw before anything else. -/
lemma process_invalid {env : Nat → AttemptEnv} {rawText : String}
    {g : Bool} {k : Nat} (h : rawText.trim = "" ∨ rawText.length < 5) :
    processIncidentWithAI env rawText g k = .error "Input invalid." := by
  rw [processIncidentWithAI]
  simp [h]

/-- A successful backend response on a valid input yields the success
incident of that attempt. -/
lemma process_success {env : Nat → AttemptEnv} {rawText : String}
    {g : Bool} {k : Nat} {r : RawResponse}
    (hv : ¬(rawText.trim = "" ∨ rawText.length < 5))
    (hok : (env k).outcome = .ok r) :
    processIncidentWithAI env rawText g k = .ok (successIncident (env k) r) := by
  rw [processIncidentWithAI]
  simp [hv, hok]

/-- A retryable error below the attempt cap recurses into the next
attempt. -/
lemma process_retry {env : Nat → AttemptEnv} {rawText : String}
    {g : Bool} {k : Nat} {e : ErrInfo}
    (hv : ¬(rawText.trim = "" ∨ rawText.length < 5))
    (herr : (env k).outcome = .error e)
    (hk : k < 3) (hr : retryableError e = true) :
    processIncidentWithAI env rawText g k
      = processIncidentWithAI env rawText g (k + 1) := by
  rw [processIncidentWithAI]
  simp [hv, herr, hk, hr]

/-- A non-retryable error, or an error at the attempt cap, synthesizes
the fallback incident of the current attempt. -/
lemma process_fallback {env : Nat → AttemptEnv} {rawText : String}
    {g : Bool} {k : Nat} {e : ErrInfo}
    (hv : ¬(rawText.trim = "" ∨ rawText.length < 5))
    (herr : (env k).outcome = .error e)
    (h : ¬(k < 3 ∧ retryableError e = true)) :
    processIncidentWithAI env rawText g k
      = .ok (fallbackIncident (env k)) := by
  rw [processIncidentWithAI]
  simp only [hv, herr, if_false]
  split
  · exact absurd (by simpa using ‹_›) h
  · rfl

/-- Totality on valid input: whatever the backend does, the client
resolves to some incident (fuel-indexed strong induction on the
remaining retry budget). -/
lemma process_isOk {env : Nat → AttemptEnv} {rawText : String} {g : Bool}
    (hv : ¬(rawText.trim = "" ∨ rawText.length < 5)) :
    ∀ n k, 3 - k ≤ n →
      ∃ inc, processIncidentWithAI env rawText g k = .ok inc := by
  intro n
  induction n with
  | zero =>
    intro k hk
    cases houtcome : (env k).outcome with
    | ok r => exact ⟨_, process_success hv houtcome⟩
    | error e =>
      refine ⟨_, process_fallback hv houtcome ?_⟩
      rintro ⟨h1, -⟩
      omega
  | succ n ih =>
    intro k hk
    cases houtcome : (env k).outcome with
    | ok r => exact ⟨_, process_success hv houtcome⟩
    | error e =>
      by_cases hcond : k < 3 ∧ retryableError e = true
      · obtain ⟨inc, hinc⟩ := ih (k + 1) (by omega)
        exact ⟨inc, (process_retry hv houtcome hcond.1 hcond.2).trans hinc⟩
      · exact ⟨_, process_fallback hv houtcome hcond⟩

/-- The clamp `Math.min(10, Math.max(1, z))` always lands in [1,10]. -/
lemma clamp_mem (z : Int) : 1 ≤ min 10 (max 1 z) ∧ min 10 (max 1 z) ≤ 10 := by
  omega

/-- Every incident the client resolves to carries a priority score in
[1,10]: the success path clamps, the fallback path hard-codes 5. -/
lemma process_priority {env : Nat → AttemptEnv} {rawText : String} {g : Bool}
    (hv : ¬(rawText.trim = "" ∨ rawText.length < 5)) :
    ∀ n k inc, 3 - k ≤ n →
      processIncidentWithAI env rawText g k = .ok inc →
      1 ≤ inc.priority_score ∧ inc.priority_score ≤ 10 := by
  intro n
  induction n with
  | zero =>
    intro k inc hk hres
    cases houtcome : (env k).outcome with
    | ok r =>
      rw [process_success hv houtcome] at hres
      cases hres
      exact clamp_mem _
    | error e =>
      rw [process_fallback hv houtcome (by rintro ⟨h1, -⟩; omega)] at hres
      cases hres
      exact ⟨by norm_num [fallbackIncident], by norm_num [fallbackIncident]⟩
  | succ n ih =>
    intro k inc hk hres
    cases houtcome : (env k).outcome with
    | ok r =>
      rw [process_success hv houtcome] at hres
      cases hres
      exact clamp_mem _
    | error e =>
      by_cases hcond : k < 3 ∧ retryableError e = true
      · rw [process_retry hv houtcome hcond.1 hcond.2] at hres
        exact ih (k + 1) inc (by omega) hres
      · rw [process_fallback hv houtcome hcond] at hres
        cases hres
        exact ⟨by norm_num [fallbackIncident], by norm_num [fallbackIncident]⟩

/-- Exhaustion: four consecutive retryable failures walk attempts
0,1,2,3 and fall back at attempt 3. -/
lemma process_exhaust {env : Nat → AttemptEnv} {rawText : String} {g : Bool}
    (hv : ¬(rawText.trim = "" ∨ rawText.length < 5))
    (hall : ∀ k, k ≤ 3 →
      ∃ e, (env k).outcome = .error e ∧ retryableError e = true) :
    processIncidentWithAI env rawText g 0 = .ok (fallbackIncident (env 3)) := by
  obtain ⟨e0, h0, r0⟩ := hall 0 (by norm_num)
  obtain ⟨e1, h1, r1⟩ := hall 1 (by norm_num)
  obtain ⟨e2, h2, r2⟩ := hall 2 (by norm_num)
  obtain ⟨e3, h3, r3⟩ := hall 3 (by norm_num)
  rw [process_retry hv h0 (by norm_num) r0,
      process_retry hv h1 (by norm_num) r1,
      process_retry hv h2 (by norm_num) r2,
      process_fallback hv h3 (by rintro ⟨h, -⟩; omega)]

/-! ## Concrete sample environments for witnesses -/

/-- A sample well-formed parsed payload. -/
def sampleData : RawData :=
  { summary := some "Structure fire reported at Pier 39."
    type := some "FIRE"
    severity := some "CRITICAL"
    priority_score := some 9
    coords := some { lat := 37.808, lng := -122.41 } }

/-- A sample successful backend response with one grounding chunk. -/
def sampleResponse : RawResponse :=
  { data := sampleData
    chunks := [{ web := some { title := some "SFFD", uri := "https://sf.gov" } }] }

/-- Builds an attempt environment with fixed ids, timestamp and
latency around a given backend outcome. -/
def mkEnv (o : Except ErrInfo RawResponse) : AttemptEnv :=
  { outcome := o
    incSuffix := "A1B2C3"
    errSuffix := "KZX9"
    timestamp := "2026-01-01T00:00:00.000Z"
    latency := 42 }

/-- Environment whose backend always succeeds. -/
def okEnv : Nat → AttemptEnv := fun _ => mkEnv (.ok sampleResponse)

/-- Environment whose backend always fails rate-limited (status 429). -/
def rateLimitedEnv : Nat → AttemptEnv := fun _ => mkEnv (.error { status := some 429 })

/-- Environment whose backend fails with the explicit status 500. -/
def hardFailEnv : Nat → AttemptEnv := fun _ => mkEnv (.error { status := some 500 })

/-- Environment whose first attempt fails with the explicit status 0
and whose later attempts succeed. -/
def statusZeroEnv : Nat → AttemptEnv := fun k =>
  if k = 0 then mkEnv (.error { status := some 0 }) else mkEnv (.ok sampleResponse)

/-- A parsed payload carrying the falsy raw priority score 0. -/
def zeroScoreResponse : RawResponse :=
  { data := { sampleData with priority_score := some 0 }, chunks := [] }

set_option maxRecDepth 8000 in
/-- Evaluation of `String.trim` on the sample input (its first and last
characters are not whitespace, so both trimming scans stop
immediately). -/
lemma samplePierFire_trim : "PierFire".trim = "PierFire" := by
  show ("PierFire".toSubstring.trim).toString = "PierFire"
  rw [Substring.trim, Substring.takeWhileAux, Substring.takeRightWhileAux]
  simp +decide [String.toSubstring]

/-- The sample input does not trip the input validation. -/
lemma samplePierFire_notInvalid :
    ¬("PierFire".trim = "" ∨ "PierFire".length < 5) := by
  rintro (h | h)
  · rw [samplePierFire_trim] at h
    exact absurd h (by decide)
  · exact absurd h (by decide)

/-- The sample input satisfies the client's precondition. -/
lemma samplePierFire_valid :
    "PierFire".trim ≠ "" ∧ 5 ≤ "PierFire".length := by
  refine ⟨fun h => samplePierFire_notInvalid (Or.inl h), by decide⟩

/-! ## Claims -/

/-- **C1.** For every input that is non-empty after trimming and at
least 5 characters long, the classification client never raises: it
resolves to some incident whatever the backend does; after four
consecutive retryable failures it resolves to the fallback incident of
attempt 3, and on an immediate non-retryable failure to the fallback
incident of attempt 0; and every fallback incident has an id prefixed
`ERR-`, status ERROR, severity MAJOR, priority score 5, the fixed
city-center coordinates (37.7749, -122.4194), the generic fault
summary, and neither grounding sources nor a latency value. -/
theorem claim1_client_never_raises (env : Nat → AttemptEnv)
    (rawText : String) (g : Bool)
    (hv : rawText.trim ≠ "" ∧ 5 ≤ rawText.length) :
    (∃ inc, processIncidentWithAI env rawText g 0 = .ok inc) ∧
    ((∀ k, k ≤ 3 → ∃ e, (env k).outcome = .error e ∧ retryableError e = true) →
      processIncidentWithAI env rawText g 0 = .ok (fallbackIncident (env 3))) ∧
    (∀ e, (env 0).outcome = .error e → retryableError e = false →
      processIncidentWithAI env rawText g 0 = .ok (fallbackIncident (env 0))) ∧
    (∀ e', (∃ s, (fallbackIncident e').id = "ERR-" ++ s) ∧
      (fallbackIncident e').status = "ERROR" ∧
      (fallbackIncident e').severity = "MAJOR" ∧
      (fallbackIncident e').priority_score = 5 ∧
      (fallbackIncident e').coords = some { lat := 37.7749, lng := -122.4194 } ∧
      (fallbackIncident e').summary = "System fault in AI parsing logic." ∧
      (fallbackIncident e').grounding_sources = none ∧
      (fallbackIncident e').processing_latency = none) := by
  have hv' : ¬(rawText.trim = "" ∨ rawText.length < 5) := by
    rintro (h | h)
    · exact hv.1 h
    · omega
  refine ⟨process_isOk hv' 3 0 (by norm_num), process_exhaust hv', ?_, ?_⟩
  · intro e he hr
    refine process_fallback hv' he ?_
    rintro ⟨-, h⟩
    simp [hr] at h
  · intro e'
    exact ⟨⟨e'.errSuffix, rfl⟩, rfl, rfl, rfl, rfl, rfl, rfl, rfl⟩

/-- Witness for C1: a backend that is rate-limited on every attempt
drives the client to the fallback incident of attempt 3. -/
theorem claim1_witness :
    processIncidentWithAI rateLimitedEnv "PierFire" true 0
      = .ok (fallbackIncident (rateLimitedEnv 3)) :=
  (claim1_client_never_raises rateLimitedEnv "PierFire" true
      samplePierFire_valid).2.1
    (fun _ _ => ⟨{ status := some 429 }, rfl, by decide⟩)

/-- **C3.** Every incident the client resolves to on valid input has a
priority score in [1,10]; the success path computes the score as the
clamp `min 10 (max 1 ·)` of the falsy-defaulted raw score, and in
particular a raw score of 25 yields 10 and a raw score of -3 yields 1. -/
theorem claim3_priority_clamped (env : Nat → AttemptEnv)
    (rawText : String) (g : Bool)
    (hv : rawText.trim ≠ "" ∧ 5 ≤ rawText.length) :
    (∀ inc, processIncidentWithAI env rawText g 0 = .ok inc →
      1 ≤ inc.priority_score ∧ inc.priority_score ≤ 10) ∧
    (∀ e r, (successIncident e r).priority_score
      = min 10 (max 1 (jsOrInt r.data.priority_score 5))) ∧
    (∀ (e : AttemptEnv) (r : RawResponse), r.data.priority_score = some 25 →
      (successIncident e r).priority_score = 10) ∧
    (∀ (e : AttemptEnv) (r : RawResponse), r.data.priority_score = some (-3) →
      (successIncident e r).priority_score = 1) := by
  have hv' : ¬(rawText.trim = "" ∨ rawText.length < 5) := by
    rintro (h | h)
    · exact hv.1 h
    · omega
  refine ⟨fun inc h => process_priority hv' 3 0 inc (by norm_num) h,
    fun e r => rfl, ?_, ?_⟩
  · intro e r h
    simp [successIncident, jsOrInt, h]
  · intro e r h
    simp [successIncident, jsOrInt, h]

/-- Witness for C3: the sample success incident (raw score 9) lands in
[1,10]. -/
theorem claim3_witness :
    1 ≤ (successIncident (okEnv 0) sampleResponse).priority_score ∧
    (successIncident (okEnv 0) sampleResponse).priority_score ≤ 10 :=
  (claim3_priority_clamped okEnv "PierFire" true samplePierFire_valid).1 _
    (process_success samplePierFire_notInvalid rfl)

/-- **C4 (amended).** On a failure at attempt `k` the client retries
exactly when `k < 3` and the error's status is truthy-429 or falsy;
otherwise it immediately synthesizes the fallback incident of attempt
`k` — so there are at most 3 retries (attempts 0–3).  The retryable
statuses are 429, *absent*, and the falsy explicit status 0 (the claim
as frozen admits only 429 and absent; see the counterexample). -/
theorem claim4_amended_retry_policy (env : Nat → AttemptEnv)
    (rawText : String) (g : Bool) (k : Nat) (e : ErrInfo)
    (hv : rawText.trim ≠ "" ∧ 5 ≤ rawText.length)
    (herr : (env k).outcome = .error e) :
    (k < 3 → retryableError e = true →
      processIncidentWithAI env rawText g k
        = processIncidentWithAI env rawText g (k + 1)) ∧
    (retryableError e = false ∨ 3 ≤ k →
      processIncidentWithAI env rawText g k
        = .ok (fallbackIncident (env k))) ∧
    (retryableError e = true ↔
      e.status = some 429 ∨ e.status = none ∨ e.status = some 0) := by
  have hv' : ¬(rawText.trim = "" ∨ rawText.length < 5) := by
    rintro (h | h)
    · exact hv.1 h
    · omega
  refine ⟨fun hk hr => process_retry hv' herr hk hr, fun h => ?_, ?_⟩
  · refine process_fallback hv' herr ?_
    rintro ⟨hk, hr⟩
    rcases h with h | h
    · simp [hr] at h
    · omega
  · obtain ⟨s⟩ := e
    cases s with
    | none => simp [retryableError, jsFalsyInt]
    | some v =>
      simp only [retryableError, jsFalsyInt, Bool.or_eq_true, decide_eq_true_eq,
        Option.some.injEq, reduceCtorEq, false_or]

/-- Witness for C4 (amended): a hard status-500 failure at attempt 0
falls back immediately, without a retry. -/
theorem claim4_witness :
    processIncidentWithAI hardFailEnv "PierFire" true 0
      = .ok (fallbackIncident (hardFailEnv 0)) :=
  (claim4_amended_retry_policy hardFailEnv "PierFire" true 0
      { status := some 500 } samplePierFire_valid rfl).2.1 (Or.inl (by decide))

/-- Counterexample to C4 as frozen: the explicit error status 0 is
neither 429 nor an absent status, yet the client retries — with a
status-0 failure at attempt 0 and a success at attempt 1, the call
resolves to attempt 1's success incident instead of producing the
fallback immediately. -/
theorem claim4_counterexample :
    (statusZeroEnv 0).outcome = .error { status := some 0 } ∧
    processIncidentWithAI statusZeroEnv "PierFire" true 0
      = .ok (successIncident (statusZeroEnv 1) sampleResponse) ∧
    successIncident (statusZeroEnv 1) sampleResponse
      ≠ fallbackIncident (statusZeroEnv 0) := by
  refine ⟨rfl, ?_, by decide⟩
  rw [process_retry samplePierFire_notInvalid
    (show (statusZeroEnv 0).outcome = .error { status := some 0 } from rfl)
    (by norm_num) (by decide)]
  exact process_success samplePierFire_notInvalid rfl

/-- **C10.** A falsy raw priority score (absent or 0) defaults to 5 in
the success incident — not the clamp floor 1 — because the `|| 5`
default substitution happens before the clamp. -/
theorem claim10_falsy_priority_defaults (e : AttemptEnv) (r : RawResponse) :
    (r.data.priority_score = none ∨ r.data.priority_score = some 0 →
      (successIncident e r).priority_score = 5) ∧
    (successIncident e r).priority_score
      = min 10 (max 1 (jsOrInt r.data.priority_score 5)) := by
  refine ⟨?_, rfl⟩
  rintro (h | h) <;> simp [successIncident, jsOrInt, h]

/-- Witness for C10: a raw score of 0 yields the default 5. -/
theorem claim10_witness :
    (successIncident (mkEnv (.ok zeroScoreResponse)) zeroScoreResponse).priority_score
      = 5 :=
  (claim10_falsy_priority_defaults (mkEnv (.ok zeroScoreResponse))
      zeroScoreResponse).1 (Or.inr rfl)

/-- Builds an incident with the given id, status and severity and
neutral remaining fields. -/
def mkIncident (id status severity : String) : Incident :=
  { id := id
    timestamp := "2026-01-01T00:00:00.000Z"
    summary := "s"
    type := "OTHER"
    severity := severity
    priority_score := 5
    coords := none
    status := status }

/-- The spec's §8 stats example: statuses
[ACTIVE, ACTIVE(critical), DISPATCHED, SOLVED]. -/
def exampleIncidents : List Incident :=
  [mkIncident "I1" "ACTIVE" "MINOR",
   mkIncident "I2" "ACTIVE" "CRITICAL",
   mkIncident "I3" "DISPATCHED" "MAJOR",
   mkIncident "I4" "SOLVED" "CRITICAL"]

/-- Length of a filter of a filter as a count over the conjunction of
the two predicates. -/
lemma filter_filter_countP (l : List Incident) (p q : Incident → Prop)
    [DecidablePred p] [DecidablePred q] :
    ((l.filter fun i => p i).filter fun i => q i).length
      = l.countP fun i => p i ∧ q i := by
  rw [List.countP_eq_length_filter, List.filter_filter]
  congr 1
  refine List.filter_congr fun a _ => ?_
  by_cases h1 : p a <;> by_cases h2 : q a <;> simp [h1, h2]

/-- **C6.** `stats` counts `total`, `critical` and `dispatched` only
over incidents with status ≠ SOLVED (`critical` further restricted to
CRITICAL severity, `dispatched` to status DISPATCHED) and `solved`
over incidents with status = SOLVED; on the example statuses
[ACTIVE, ACTIVE(critical), DISPATCHED, SOLVED] it returns
total 3, critical 1, dispatched 1, solved 1. -/
theorem claim6_stats_counts (l : List Incident) :
    (stats l).total = (l.countP fun i => i.status ≠ "SOLVED") ∧
    (stats l).critical
      = (l.countP fun i => i.status ≠ "SOLVED" ∧ i.severity = "CRITICAL") ∧
    (stats l).dispatched
      = (l.countP fun i => i.status ≠ "SOLVED" ∧ i.status = "DISPATCHED") ∧
    (stats l).solved = (l.countP fun i => i.status = "SOLVED") ∧
    stats exampleIncidents
      = { total := 3, critical := 1, dispatched := 1, solved := 1 } := by
  refine ⟨?_, ?_, ?_, ?_, by decide⟩
  · simp [stats, List.countP_eq_length_filter]
  · simpa [stats] using
      filter_filter_countP l (fun i => i.status ≠ "SOLVED")
        (fun i => i.severity = "CRITICAL")
  · simpa [stats] using
      filter_filter_countP l (fun i => i.status ≠ "SOLVED")
        (fun i => i.status = "DISPATCHED")
  · simp [stats, List.countP_eq_length_filter]

/-- A diagnostic log whose core-connectivity record failed. -/
def sampleLog : List TestResult :=
  [{ id := "core", name := "Core GenAI API", status := "FAIL", duration := 12 }]

/-- **C7.** `health`: the api status is DOWN when the `core` record of
the (freshly replaced) diagnostic log is FAIL, else DEGRADED when some
incident has status ERROR, else HEALTHY; the cache hit rate is
`round(100*cacheHits/totalRequests)` and 0 without requests, giving 25
for 1 hit out of 4; the passing-tests rate is
`round(100*passing/records)` and 0 for an empty log. -/
theorem claim7_health_formulas (log : List TestResult)
    (incs : List Incident) (hits reqs : Nat) :
    (((log.find? fun t => t.id = "core").map TestResult.status) = some "FAIL" →
      healthApiStatus log incs = "DOWN") ∧
    (((log.find? fun t => t.id = "core").map TestResult.status) ≠ some "FAIL" →
      (∃ i ∈ incs, i.status = "ERROR") →
      healthApiStatus log incs = "DEGRADED") ∧
    (((log.find? fun t => t.id = "core").map TestResult.status) ≠ some "FAIL" →
      (∀ i ∈ incs, i.status ≠ "ERROR") →
      healthApiStatus log incs = "HEALTHY") ∧
    healthCacheHitRate hits 0 = 0 ∧
    (reqs ≠ 0 → healthCacheHitRate hits reqs
      = jsRound ((hits : Rat) / (reqs : Rat) * 100)) ∧
    healthCacheHitRate 1 4 = 25 ∧
    healthActiveTestsPassing [] = 0 ∧
    (log ≠ [] → healthActiveTestsPassing log
      = jsRound (((log.filter fun t => t.status = "PASS").length : Rat)
          / (log.length : Rat) * 100)) := by
  refine ⟨?_, ?_, ?_, rfl, ?_, ?_, rfl, ?_⟩
  · intro h
    simp [healthApiStatus, h]
  · intro h he
    have : incs.any (fun i => i.status = "ERROR") = true := by
      simpa [List.any_eq_true] using he
    simp [healthApiStatus, h, this]
  · intro h he
    have : incs.any (fun i => i.status = "ERROR") = false := by
      simp only [List.any_eq_false, decide_eq_true_eq]
      exact he
    simp [healthApiStatus, h, this]
  · intro h
    simp [healthCacheHitRate, h]
  · show healthCacheHitRate 1 4 = 25
    rw [healthCacheHitRate]
    norm_num [jsRound]
  · intro h
    simp [healthActiveTestsPassing, List.length_eq_zero, h]

/-- Witness for C7: a failed core record forces DOWN, and 1 hit out of
4 requests rates 25. -/
theorem claim7_witness :
    healthApiStatus sampleLog [] = "DOWN" ∧ healthCacheHitRate 1 4 = 25 :=
  ⟨(claim7_health_formulas sampleLog [] 1 4).1 rfl,
   (claim7_health_formulas sampleLog [] 1 4).2.2.2.2.2.1⟩

/-- The duration `runTest` records never depends on the outcome. -/
lemma runTest_duration (name : String) (o : CheckOutcome) (d : Int) :
    (runTest name o d).duration = d := by
  cases o <;> rfl

/-- **C8.** The diagnostics battery is fault-isolated: `runSuite`
always reports all four checks, each with its own measured duration; a
check body that throws is recorded as FAIL carrying the triggering
message while a normal body is recorded as PASS; a failing hash check
leaves the other three checks running and passing; and the suite
passes iff every produced record is PASS. -/
theorem claim8_diagnostics_isolation (hash : String → String) (ts : String)
    (durs : Nat → Int) :
    (runSuite hash ts durs).length = 4 ∧
    (runSuite hash ts durs).map TestResultDetails.duration
      = [durs 0, durs 1, durs 2, durs 3] ∧
    (∀ name msg d, runTest name (.throws msg) d
      = { name := name, status := "FAIL", duration := d, message := some msg }) ∧
    (∀ name d, runTest name .ok d
      = { name := name, status := "PASS", duration := d }) ∧
    (ts ≠ "" → (hash "test_payload").length ≠ 64 →
      (runSuite hash ts durs).map TestResultDetails.status
        = ["PASS", "PASS", "FAIL", "PASS"]) ∧
    (∀ rs, suitePass rs = true ↔ ∀ r ∈ rs, r.status = "PASS") := by
  refine ⟨rfl, ?_, fun _ _ _ => rfl, fun _ _ => rfl, ?_, ?_⟩
  · simp [runSuite, runTest_duration]
  · intro hts hl
    have hgeo : geospatialCheck = CheckOutcome.ok := by
      simp only [geospatialCheck]
      norm_num
    simp [runSuite, runTest, dataIntegrityCheck, cacheHashCheck,
      immutabilityCheck, hts, hl, hgeo]
  · intro rs
    simp [suitePass, List.all_eq_true]

/-- Witness for C8: with a 4-character digest the hash check fails
while the other three checks still run and pass. -/
theorem claim8_witness :
    (runSuite (fun _ => "DGST") "2026-01-01T00:00:00.000Z"
        (fun _ => 1)).map TestResultDetails.status
      = ["PASS", "PASS", "FAIL", "PASS"] :=
  (claim8_diagnostics_isolation (fun _ => "DGST") "2026-01-01T00:00:00.000Z"
      (fun _ => 1)).2.2.2.2.1 (by decide) (by decide)

/-- Uniqueness of the incident list by id (the "unique by id" contract
of the most-recent-first list). -/
def uniqueById (l : List Incident) : Prop :=
  l.Pairwise fun a b => a.id ≠ b.id

/-- A freshly stored digest is what `lookupCache` finds. -/
lemma lookupCache_store (cache : List (String × Incident)) (d : String)
    (inc : Incident) : lookupCache (storeCache cache d inc) d = some inc := by
  simp [lookupCache, storeCache]

/-- The initial hook state: no incidents, no metrics, empty cache. -/
def emptyState : QPortState :=
  { incidents := [], cacheHits := 0, totalRequests := 0, cache := [] }

/-- **C2.** Submitting the same text twice with a fresh cache entry:
the first call resolves to the classified incident; the second call is
a cache hit that increments `cacheHits`, resolves to an incident with
the first call's id, moves the hit to the front of the list, leaves no
other entry with that id behind it, and preserves uniqueness by id. -/
theorem claim2_idempotent_resubmission (hash : String → String)
    (classify : String → Except String Incident)
    (st0 : QPortState) (t : String) (inc : Incident)
    (hmiss : lookupCache st0.cache (hash t) = none)
    (hok : classify t = .ok inc) :
    ∀ st1 r1, addIncident hash classify st0 t = (st1, r1) →
    ∀ st2 r2, addIncident hash classify st1 t = (st2, r2) →
      r1 = some inc ∧
      st2.cacheHits = st1.cacheHits + 1 ∧
      (∃ hit, r2 = some hit ∧ hit.id = inc.id) ∧
      st2.incidents.head? = some inc ∧
      (∀ i ∈ st2.incidents.tail, i.id ≠ inc.id) ∧
      (uniqueById st1.incidents → uniqueById st2.incidents) := by
  intro st1 r1 h1 st2 r2 h2
  have e1 : addIncident hash classify st0 t
      = ({ incidents := inc :: st0.incidents, cacheHits := st0.cacheHits,
           totalRequests := st0.totalRequests + 1,
           cache := storeCache st0.cache (hash t) inc }, some inc) := by
    simp [addIncident, hmiss, hok]
  rw [h1] at e1
  obtain ⟨hst1, hr1⟩ := Prod.mk.injEq .. ▸ e1
  have hl : lookupCache st1.cache (hash t) = some inc := by
    rw [hst1]
    exact lookupCache_store _ _ _
  have hany : st1.incidents.any (fun i => i.id = inc.id) = true := by
    rw [hst1]
    simp
  have e2 : addIncident hash classify st1 t
      = ({ incidents := inc :: st1.incidents.filter fun i => i.id ≠ inc.id,
           cacheHits := st1.cacheHits + 1,
           totalRequests := st1.totalRequests + 1,
           cache := st1.cache }, some inc) := by
    simp [addIncident, hl, hany]
  rw [h2] at e2
  obtain ⟨hst2, hr2⟩ := Prod.mk.injEq .. ▸ e2
  refine ⟨hr1, by rw [hst2], ⟨inc, hr2, rfl⟩, by simp [hst2], ?_, ?_⟩
  · intro i hi
    rw [hst2] at hi
    simp only [List.tail_cons, List.mem_filter, decide_eq_true_eq] at hi
    exact hi.2
  · intro hu
    rw [hst2]
    refine List.Pairwise.cons ?_ (hu.filter _)
    intro b hb
    simp only [List.mem_filter, decide_eq_true_eq] at hb
    exact fun h => hb.2 (h ▸ rfl)

/-- Witness for C2: one concrete resubmission round-trip from the
empty state. -/
theorem claim2_witness :
    ∃ st1 r1 st2 r2,
      addIncident (fun _ => "DGST") (fun _ => .ok (mkIncident "I1" "ACTIVE" "MINOR"))
        emptyState "PierFire" = (st1, r1) ∧
      addIncident (fun _ => "DGST") (fun _ => .ok (mkIncident "I1" "ACTIVE" "MINOR"))
        st1 "PierFire" = (st2, r2) ∧
      r1 = some (mkIncident "I1" "ACTIVE" "MINOR") ∧
      st2.cacheHits = st1.cacheHits + 1 ∧
      (∃ hit, r2 = some hit ∧ hit.id = (mkIncident "I1" "ACTIVE" "MINOR").id) := by
  obtain ⟨a, b, c, -, -, -⟩ :=
    claim2_idempotent_resubmission (fun _ => "DGST")
      (fun _ => .ok (mkIncident "I1" "ACTIVE" "MINOR"))
      emptyState "PierFire" (mkIncident "I1" "ACTIVE" "MINOR") rfl rfl
      _ _ rfl _ _ rfl
  exact ⟨_, _, _, _, rfl, rfl, a, b, c⟩

/-- **C5.** An input that is empty after trimming or shorter than 5
characters is rejected independently of the backend (the client throws
the validation error before consulting it), and — when no cache entry
exists for its digest, the only situation reachable through the
pipeline — `addIncident` resolves to `null` with cache, incident list
and `cacheHits` untouched; only `totalRequests` is bumped. -/
theorem claim5_rejection (env : Nat → AttemptEnv) (hash : String → String)
    (st : QPortState) (t : String) (g : Bool)
    (hbad : t.trim = "" ∨ t.length < 5)
    (hmiss : lookupCache st.cache (hash t) = none) :
    (∀ (envAlt : Nat → AttemptEnv) (k : Nat),
      processIncidentWithAI envAlt t g k = .error "Input invalid.") ∧
    ∀ st' r, addIncident hash (fun s => processIncidentWithAI env s g 0) st t
        = (st', r) →
      r = none ∧ st'.cache = st.cache ∧ st'.incidents = st.incidents ∧
      st'.cacheHits = st.cacheHits ∧
      st'.totalRequests = st.totalRequests + 1 := by
  refine ⟨fun envAlt k => process_invalid hbad, ?_⟩
  intro st' r h
  have e : addIncident hash (fun s => processIncidentWithAI env s g 0) st t
      = ({ incidents := st.incidents, cacheHits := st.cacheHits,
           totalRequests := st.totalRequests + 1, cache := st.cache }, none) := by
    simp [addIncident, hmiss, process_invalid hbad]
  rw [h] at e
  obtain ⟨hst, hr⟩ := Prod.mk.injEq .. ▸ e
  exact ⟨hr, by rw [hst], by rw [hst], by rw [hst], by rw [hst]⟩

/-- Witness for C5: submitting `"hi"` from the empty state resolves to
`null` and mutates nothing but `totalRequests`. -/
theorem claim5_witness :
    (∀ (envAlt : Nat → AttemptEnv) (k : Nat),
      processIncidentWithAI envAlt "hi" true k = .error "Input invalid.") ∧
    ∀ st' r, addIncident (fun _ => "DGST")
        (fun s => processIncidentWithAI okEnv s true 0) emptyState "hi"
        = (st', r) →
      r = none ∧ st'.cache = emptyState.cache ∧
      st'.incidents = emptyState.incidents ∧
      st'.cacheHits = emptyState.cacheHits ∧
      st'.totalRequests = emptyState.totalRequests + 1 :=
  claim5_rejection okEnv (fun _ => "DGST") emptyState "hi" true
    (Or.inr (by decide)) rfl

/-- **C9.** `addIncident` itself never rejects: it always resolves to
an incident or to `null`, a classification error is caught and
surfaced as `null`, and `totalRequests` is incremented exactly once
per invocation whatever the branch taken. -/
theorem claim9_addIncident_total (hash : String → String)
    (classify : String → Except String Incident)
    (st : QPortState) (t : String) :
    (addIncident hash classify st t).1.totalRequests = st.totalRequests + 1 ∧
    ((addIncident hash classify st t).2 = none ∨
      ∃ i, (addIncident hash classify st t).2 = some i) ∧
    (∀ msg, lookupCache st.cache (hash t) = none → classify t = .error msg →
      (addIncident hash classify st t).2 = none) := by
  refine ⟨?_, ?_, ?_⟩
  · rw [addIncident]
    cases h : lookupCache st.cache (hash t) with
    | some c => simp
    | none => cases hc : classify t <;> simp [hc]
  · cases h : (addIncident hash classify st t).2 with
    | none => exact Or.inl rfl
    | some i => exact Or.inr ⟨i, rfl⟩
  · intro msg hm hc
    simp [addIncident, hm, hc]

/-- Witness for C9: the rejected submission of `"hi"` still counts one
request and resolves to `null`. -/
theorem claim9_witness :
    (addIncident (fun _ => "DGST")
        (fun s => processIncidentWithAI okEnv s true 0)
        emptyState "hi").1.totalRequests = emptyState.totalRequests + 1 ∧
    (addIncident (fun _ => "DGST")
        (fun s => processIncidentWithAI okEnv s true 0)
        emptyState "hi").2 = none :=
  ⟨(claim9_addIncident_total (fun _ => "DGST")
      (fun s => processIncidentWithAI okEnv s true 0) emptyState "hi").1,
   (claim9_addIncident_total (fun _ => "DGST")
      (fun s => processIncidentWithAI okEnv s true 0) emptyState "hi").2.2
     "Input invalid." rfl (process_invalid (Or.inr (by decide)))⟩

end QPort
